import Mathlib

/-!
# Verification of the POS KHQR sale-lifecycle backend

Shallow embedding of `src/main.py`: the sale record, the in-memory sale
store, expiry refresh, sale creation, status polling against the payment
oracle, and cancellation.  External collaborators (the KHQR payload
provider `khqr.create_qr` / `khqr.generate_md5`, the PNG renderer
`qr_png_base64`, and the status oracle `khqr.check_payment`) are modelled
by the outcomes of their calls (`Except`), since the code treats them as
opaque fallible calls.
-/

/-- Sale lifecycle status; the code stores the strings
"PENDING", "PAID", "CANCELLED", "EXPIRED". -/
inductive Status where
  | PENDING
  | PAID
  | CANCELLED
  | EXPIRED
deriving DecidableEq, Repr

/-- A sale record, as the dict built in `create_sale` (main.py lines 138-150).
Timestamps are integer seconds (`int(time.time())`). -/
structure Sale where
  sale_id : String
  amount : Rat
  currency : String
  note : Option String
  cashier_id : Option String
  bill_number : String
  md5 : String
  status : Status
  created_at : Nat
  expired_at : Nat
  paid_at : Option Nat
deriving DecidableEq, Repr

/-- Error responses raised by the handlers (`HTTPException`), plus the
validation rejection performed by pydantic before a handler runs. -/
inductive ApiError where
  | NotFound (detail : String)
  | Conflict (detail : String)
  | ServerError (detail : String)
  | ValidationError
deriving DecidableEq, Repr

/-- `_refresh_sale_expiry` (main.py lines 60-66): mark the sale EXPIRED if
the TTL passed and it is not already finalized. -/
def refresh_sale_expiry (now : Nat) (sale : Sale) : Sale :=
  if sale.status = Status.PAID ∨ sale.status = Status.CANCELLED then
    sale
  else if now > sale.expired_at then
    { sale with status := Status.EXPIRED }
  else
    sale

/-- Python `str.strip(chars)`: drop characters satisfying `p` from both
ends of the string. -/
def pyStrip (p : Char → Bool) (s : String) : String :=
  String.mk (((s.data.dropWhile p).reverse.dropWhile p).reverse)

/-- ASCII whitespace, as stripped by Python `str.strip()` with no
argument. -/
def pyIsSpace (c : Char) : Bool :=
  c = ' ' || c = '\t' || c = '\n' || c = '\r' || c = '\x0b' || c = '\x0c'

/-- Python `str.upper()` (ASCII range, which is all the code compares). -/
def pyUpper (s : String) : String :=
  String.mk (s.data.map Char.toUpper)

/-- The oracle-response normalization in `check_sale_status`
(main.py line 217): `result.strip().strip(quote).upper()`. -/
def normalizeOracleResponse (s : String) : String :=
  pyUpper (pyStrip (fun c => c = '"') (pyStrip pyIsSpace s))

/-- The fixed accepted set of oracle responses (main.py line 223). -/
def acceptedPaidResponses : List String :=
  ["PAID", "SUCCESS", "SUCCESSFUL", "COMPLETED"]

/-- The paid decision of `check_sale_status` (main.py lines 216-223):
normalize the raw response, then exact membership in the accepted set. -/
def isPaidResponse (s : String) : Bool :=
  acceptedPaidResponses.contains (normalizeOracleResponse s)

/-- Response body of `GET /pos/sale/.../status` (`SaleStatusRes`). -/
structure SaleStatusRes where
  sale_id : String
  status : Status
  md5 : String
deriving DecidableEq, Repr

/-- Everything observable about one `check_sale_status` call: the HTTP
result, the sale record afterwards, and whether `khqr.check_payment`
was invoked during the call. -/
structure PollOutcome where
  response : Except ApiError SaleStatusRes
  sale : Sale
  oracleQueried : Bool

/-- `check_sale_status` (main.py lines 190-231) for a stored sale.
`hasToken` models `bool(BAKONG_TOKEN)`; `oracle` is the outcome of
`khqr.check_payment(sale.md5)` (error = raised exception); `now` is the
clock read inside `_refresh_sale_expiry` and `nowPaid` the later clock
read at line 225. -/
def check_sale_status (hasToken : Bool) (oracle : Except String String)
    (now nowPaid : Nat) (sale : Sale) : PollOutcome :=
  let sale := refresh_sale_expiry now sale
  if sale.status = Status.EXPIRED then
    ⟨Except.ok ⟨sale.sale_id, Status.EXPIRED, sale.md5⟩, sale, false⟩
  else if sale.status = Status.PAID ∨ sale.status = Status.CANCELLED then
    ⟨Except.ok ⟨sale.sale_id, sale.status, sale.md5⟩, sale, false⟩
  else if hasToken = false then
    ⟨Except.ok ⟨sale.sale_id, Status.PENDING, sale.md5⟩, sale, false⟩
  else
    match oracle with
    | Except.error e =>
        ⟨Except.error (ApiError.ServerError ("Payment check failed: " ++ e)),
          sale, true⟩
    | Except.ok result =>
        if isPaidResponse result then
          let sale := { sale with status := Status.PAID, paid_at := some nowPaid }
          ⟨Except.ok ⟨sale.sale_id, sale.status, sale.md5⟩, sale, true⟩
        else
          ⟨Except.ok ⟨sale.sale_id, sale.status, sale.md5⟩, sale, true⟩

/-- `cancel_sale` (main.py lines 234-243) for a stored sale: reject PAID
sales with a 400 conflict, otherwise set CANCELLED. -/
def cancel_sale (sale : Sale) : Except ApiError (String × Status) × Sale :=
  if sale.status = Status.PAID then
    (Except.error (ApiError.Conflict "Cannot cancel a PAID sale"), sale)
  else
    let sale := { sale with status := Status.CANCELLED }
    (Except.ok (sale.sale_id, Status.CANCELLED), sale)

/-- `get_sale` (main.py lines 167-187) mutates the stored sale only through
`_refresh_sale_expiry`. -/
def get_sale (now : Nat) (sale : Sale) : Sale :=
  refresh_sale_expiry now sale

/-- The in-memory sale store `SALES: Dict[str, dict]` (main.py line 57),
as an insertion-ordered association list (Python dict semantics). -/
abbrev SaleStore := List (String × Sale)

/-- `SALES.get(sale_id)`: lookup by key. -/
def storeGet (store : SaleStore) (id : String) : Option Sale :=
  match store with
  | [] => none
  | (k, v) :: rest => if k = id then some v else storeGet rest id

/-- `SALES[sale_id] = sale`: Python dict assignment — update in place if
the key exists, else append (dicts preserve insertion order). -/
def storeSet (store : SaleStore) (id : String) (sale : Sale) : SaleStore :=
  match store with
  | [] => [(id, sale)]
  | (k, v) :: rest =>
      if k = id then (id, sale) :: rest else (k, v) :: storeSet rest id sale

/-- Request body of `POST /pos/sale` (`SaleCreateReq`). -/
structure SaleCreateReq where
  amount : Rat
  currency : String
  note : Option String
  cashier_id : Option String
deriving DecidableEq, Repr

/-- Pydantic validation on `SaleCreateReq`: `amount` has `gt=0` and
`currency` is the literal type of "USD" or "KHR"; requests failing this
are rejected (422) before the handler body runs. -/
def validReq (req : SaleCreateReq) : Bool :=
  decide (0 < req.amount) && (req.currency = "USD" || req.currency = "KHR")

/-- Response body of `POST /pos/sale` (`SaleCreateRes`). -/
structure SaleCreateRes where
  sale_id : String
  amount : Rat
  currency : String
  md5 : String
  qr_png_base64 : String
  status : Status
  created_at : Nat
  expired_at : Nat
deriving DecidableEq, Repr

/-- The `bill_number` built in `create_sale` (main.py line 117). -/
def billNumber (created_at : Nat) (sale_id : String) : String :=
  "POS-" ++ toString created_at ++ "-" ++ sale_id.take 8

/-- The sale dict stored by `create_sale` (main.py lines 138-150). -/
def mkSale (sale_id : String) (req : SaleCreateReq) (created_at ttl : Nat)
    (md5 : String) : Sale :=
  { sale_id := sale_id
    amount := req.amount
    currency := req.currency
    note := req.note
    cashier_id := req.cashier_id
    bill_number := billNumber created_at sale_id
    md5 := md5
    status := Status.PENDING
    created_at := created_at
    expired_at := created_at + ttl
    paid_at := none }

/-- `create_sale` (main.py lines 111-164).  `ttl` is `SALE_TTL_SECONDS`;
`qrResult`, `md5Result` and `pngResult` are the outcomes of
`khqr.create_qr`, `khqr.generate_md5` and `qr_png_base64` (error = raised
exception, all caught by the handler's `except` and surfaced as 500).
The store assignment `SALES[sale_id] = ...` happens after the md5 is
computed but before `qr_png_base64` runs inside the return expression. -/
def create_sale (store : SaleStore) (req : SaleCreateReq) (sale_id : String)
    (created_at ttl : Nat) (qrResult md5Result pngResult : Except String String) :
    Except ApiError SaleCreateRes × SaleStore :=
  if validReq req = false then
    (Except.error ApiError.ValidationError, store)
  else
    match qrResult with
    | Except.error e =>
        (Except.error (ApiError.ServerError ("KHQR create failed: " ++ e)), store)
    | Except.ok _qr_string =>
        match md5Result with
        | Except.error e =>
            (Except.error (ApiError.ServerError ("KHQR create failed: " ++ e)), store)
        | Except.ok md5 =>
            let sale := mkSale sale_id req created_at ttl md5
            let store := storeSet store sale_id sale
            match pngResult with
            | Except.error e =>
                (Except.error (ApiError.ServerError ("KHQR create failed: " ++ e)),
                  store)
            | Except.ok png =>
                (Except.ok
                  ⟨sale_id, req.amount, req.currency, md5, png, Status.PENDING,
                    created_at, created_at + ttl⟩, store)

/-- One externally triggered operation on a single stored sale, carrying
the clock readings and external outcomes that occur during the call. -/
inductive Op where
  | getSale (now : Nat)
  | pollStatus (hasToken : Bool) (oracle : Except String String) (now nowPaid : Nat)
  | cancelSale
  | refreshExpiry (now : Nat)

/-- The effect of one operation on the stored sale record. -/
def applyOp (op : Op) (sale : Sale) : Sale :=
  match op with
  | Op.getSale now => get_sale now sale
  | Op.pollStatus hasToken oracle now nowPaid =>
      (check_sale_status hasToken oracle now nowPaid sale).sale
  | Op.cancelSale => (cancel_sale sale).2
  | Op.refreshExpiry now => refresh_sale_expiry now sale

/-- The effect of a sequence of operations, applied left to right. -/
def applyOps (ops : List Op) (sale : Sale) : Sale :=
  ops.foldl (fun s op => applyOp op s) sale

/-! ## Helper lemmas -/

/-- `_refresh_sale_expiry` either leaves the sale unchanged, or the sale was
PENDING or EXPIRED and only the status field becomes EXPIRED. -/
theorem refresh_cases (now : Nat) (s : Sale) :
    refresh_sale_expiry now s = s ∨
      ((s.status = Status.PENDING ∨ s.status = Status.EXPIRED) ∧
        refresh_sale_expiry now s = { s with status := Status.EXPIRED }) := by
  unfold refresh_sale_expiry
  by_cases h1 : s.status = Status.PAID ∨ s.status = Status.CANCELLED
  · simp [h1]
  · by_cases hn : now > s.expired_at
    · refine Or.inr ⟨?_, by simp [h1, hn]⟩
      cases h : s.status <;> simp_all
    · simp [h1, hn]

/-- All fields other than status survive the expiry refresh. -/
theorem refresh_preserves_fields (now : Nat) (s : Sale) :
    (refresh_sale_expiry now s).sale_id = s.sale_id ∧
    (refresh_sale_expiry now s).md5 = s.md5 ∧
    (refresh_sale_expiry now s).paid_at = s.paid_at ∧
    (refresh_sale_expiry now s).expired_at = s.expired_at := by
  rcases refresh_cases now s with h | ⟨-, h⟩ <;> simp [h]

/-- A sale that is still PENDING after the refresh was not touched by it. -/
theorem refresh_pending_eq (now : Nat) (s : Sale)
    (h : (refresh_sale_expiry now s).status = Status.PENDING) :
    refresh_sale_expiry now s = s := by
  rcases refresh_cases now s with h2 | ⟨-, h2⟩
  · exact h2
  · rw [h2] at h
    simp at h

/-- The refresh never touches a PAID or CANCELLED sale. -/
theorem refresh_terminal_eq (now : Nat) (s : Sale)
    (h : s.status = Status.PAID ∨ s.status = Status.CANCELLED) :
    refresh_sale_expiry now s = s := by
  unfold refresh_sale_expiry
  simp [h]

/-! ## C8 -/

/-- C8: `_refresh_sale_expiry` is idempotent: at any fixed current time,
applying the expiry refresh twice yields the same sale state as applying
it once. -/
theorem refresh_sale_expiry_idempotent (now : Nat) (sale : Sale) :
    refresh_sale_expiry now (refresh_sale_expiry now sale) =
      refresh_sale_expiry now sale := by
  rcases refresh_cases now sale with h | ⟨-, h⟩
  · rw [h, h]
  · rw [h]
    unfold refresh_sale_expiry
    by_cases hn : now > sale.expired_at <;> simp [hn]

/-! ## Concrete example data, shared by witnesses and counterexamples -/

/-- A concrete PENDING sale as `create_sale` would store it. -/
def exampleSale : Sale :=
  { sale_id := "11111111-2222-3333-4444-555555555555"
    amount := 10
    currency := "USD"
    note := none
    cashier_id := none
    bill_number := "POS-1700000000-11111111"
    md5 := "d41d8cd98f00b204e9800998ecf8427e"
    status := Status.PENDING
    created_at := 1700000000
    expired_at := 1700000300
    paid_at := none }

/-- A concrete valid creation request. -/
def exampleReq : SaleCreateReq :=
  { amount := 10, currency := "USD", note := none, cashier_id := none }

/-! ## C2 -/

/-- C2: cancellation fails with the 400 conflict ("Cannot cancel a PAID
sale") exactly when the stored sale is PAID, leaving it unchanged, and
always succeeds on a PENDING or EXPIRED sale, setting status CANCELLED. -/
theorem cancel_sale_conflict_iff_paid (sale : Sale) :
    (sale.status = Status.PAID →
        (cancel_sale sale).1 =
          Except.error (ApiError.Conflict "Cannot cancel a PAID sale") ∧
        (cancel_sale sale).2 = sale) ∧
    (sale.status = Status.PENDING ∨ sale.status = Status.EXPIRED →
        (cancel_sale sale).1 = Except.ok (sale.sale_id, Status.CANCELLED) ∧
        (cancel_sale sale).2.status = Status.CANCELLED) ∧
    ((∃ d, (cancel_sale sale).1 = Except.error (ApiError.Conflict d)) ↔
        sale.status = Status.PAID) := by
  unfold cancel_sale
  by_cases h : sale.status = Status.PAID
  · simp [h]
  · have h2 : sale.status = Status.PAID ↔ False := by simp [h]
    simp [h, h2]

/-- C2 witness: cancelling the concrete PAID sale is rejected and the sale
is unchanged. -/
theorem cancel_sale_conflict_iff_paid_witness :
    (cancel_sale { exampleSale with status := Status.PAID, paid_at := some 1700000100 }).1 =
        Except.error (ApiError.Conflict "Cannot cancel a PAID sale") ∧
    (cancel_sale { exampleSale with status := Status.PAID, paid_at := some 1700000100 }).2 =
        { exampleSale with status := Status.PAID, paid_at := some 1700000100 } :=
  (cancel_sale_conflict_iff_paid
    { exampleSale with status := Status.PAID, paid_at := some 1700000100 }).1 rfl

/-! ## C10 -/

/-- C10: cancelling an already-CANCELLED sale succeeds, returns CANCELLED
and leaves the record unchanged; on any non-PAID sale a second
cancellation reproduces the first one exactly. -/
theorem cancel_sale_idempotent_non_paid (sale : Sale) :
    (sale.status = Status.CANCELLED →
        (cancel_sale sale).1 = Except.ok (sale.sale_id, Status.CANCELLED) ∧
        (cancel_sale sale).2 = sale) ∧
    (sale.status ≠ Status.PAID →
        cancel_sale (cancel_sale sale).2 = cancel_sale sale) := by
  constructor
  · intro h
    cases sale
    unfold cancel_sale
    simp_all
  · intro h
    cases sale
    unfold cancel_sale
    simp_all

/-- C10 witness: cancelling the concrete CANCELLED sale twice equals
cancelling it once. -/
theorem cancel_sale_idempotent_non_paid_witness :
    cancel_sale (cancel_sale { exampleSale with status := Status.CANCELLED }).2 =
      cancel_sale { exampleSale with status := Status.CANCELLED } :=
  (cancel_sale_idempotent_non_paid
    { exampleSale with status := Status.CANCELLED }).2 (by decide)

/-! ## More helper lemmas on polling -/

/-- When the refreshed status is terminal, `check_sale_status` returns it
without consulting the oracle and without further mutation. -/
theorem check_status_not_pending (hasToken : Bool) (oracle : Except String String)
    (now nowPaid : Nat) (sale : Sale)
    (h : (refresh_sale_expiry now sale).status ≠ Status.PENDING) :
    check_sale_status hasToken oracle now nowPaid sale =
      ⟨Except.ok ⟨sale.sale_id, (refresh_sale_expiry now sale).status, sale.md5⟩,
        refresh_sale_expiry now sale, false⟩ := by
  have hf := refresh_preserves_fields now sale
  cases h2 : (refresh_sale_expiry now sale).status
  case PENDING => exact absurd h2 h
  all_goals simp [check_sale_status, h2, hf.1, hf.2.1]

/-- No operation changes the status of a PAID or CANCELLED sale. -/
theorem applyOp_status_of_terminal (op : Op) (sale : Sale)
    (h : sale.status = Status.PAID ∨ sale.status = Status.CANCELLED) :
    (applyOp op sale).status = sale.status := by
  cases op with
  | getSale now => simp [applyOp, get_sale, refresh_terminal_eq now sale h]
  | refreshExpiry now => simp [applyOp, refresh_terminal_eq now sale h]
  | cancelSale =>
      rcases h with h | h <;> simp [applyOp, cancel_sale, h]
  | pollStatus hasToken oracle now nowPaid =>
      have hr : refresh_sale_expiry now sale = sale := refresh_terminal_eq now sale h
      have hnp : (refresh_sale_expiry now sale).status ≠ Status.PENDING := by
        rw [hr]
        rcases h with h | h <;> simp [h]
      simp only [applyOp]
      rw [check_status_not_pending hasToken oracle now nowPaid sale hnp]
      simp [hr]

/-- Sequenced version of `applyOp_status_of_terminal`. -/
theorem applyOps_status_of_terminal (ops : List Op) (sale : Sale)
    (h : sale.status = Status.PAID ∨ sale.status = Status.CANCELLED) :
    (applyOps ops sale).status = sale.status := by
  induction ops generalizing sale with
  | nil => rfl
  | cons op rest ih =>
      have h1 := applyOp_status_of_terminal op sale h
      have h2 : (applyOp op sale).status = Status.PAID ∨
          (applyOp op sale).status = Status.CANCELLED := by rw [h1]; exact h
      calc (applyOps (op :: rest) sale).status
          = (applyOps rest (applyOp op sale)).status := rfl
        _ = (applyOp op sale).status := ih (applyOp op sale) h2
        _ = sale.status := h1

/-- A sale can only be PAID after an operation if it was PENDING or already
PAID before it. -/
theorem applyOp_paid_source (op : Op) (sale : Sale)
    (h : (applyOp op sale).status = Status.PAID) :
    sale.status = Status.PENDING ∨ sale.status = Status.PAID := by
  cases op with
  | getSale now =>
      rcases refresh_cases now sale with h2 | ⟨-, h2⟩
      · right
        rw [applyOp, get_sale, h2] at h
        exact h
      · rw [applyOp, get_sale, h2] at h
        simp at h
  | refreshExpiry now =>
      rcases refresh_cases now sale with h2 | ⟨-, h2⟩
      · right
        rw [applyOp, h2] at h
        exact h
      · rw [applyOp, h2] at h
        simp at h
  | cancelSale =>
      by_cases h2 : sale.status = Status.PAID
      · exact Or.inr h2
      · rw [applyOp, cancel_sale] at h
        simp [h2] at h
  | pollStatus hasToken oracle now nowPaid =>
      by_cases hp : (refresh_sale_expiry now sale).status = Status.PENDING
      · left
        have := refresh_pending_eq now sale hp
        rw [this] at hp
        exact hp
      · rw [applyOp, check_status_not_pending hasToken oracle now nowPaid sale hp] at h
        simp only at h
        rcases refresh_cases now sale with h2 | ⟨-, h2⟩
        · right
          rw [h2] at h
          exact h
        · rw [h2] at h
          simp at h

/-! ## C3 -/

/-- C3: once a sale is PAID or CANCELLED, no sequence of operations
(GetSale, PollStatus, CancelSale, or the internal expiry refresh) ever
changes its status; and PAID is never reached from EXPIRED or CANCELLED. -/
theorem terminal_status_never_changes :
    (∀ (ops : List Op) (sale : Sale),
        sale.status = Status.PAID ∨ sale.status = Status.CANCELLED →
        (applyOps ops sale).status = sale.status) ∧
    (∀ (op : Op) (sale : Sale), (applyOp op sale).status = Status.PAID →
        sale.status ≠ Status.EXPIRED ∧ sale.status ≠ Status.CANCELLED) := by
  constructor
  · exact applyOps_status_of_terminal
  · intro op sale h
    rcases applyOp_paid_source op sale h with h2 | h2 <;> simp [h2]

/-- C3 witness: a concrete PAID sale keeps status PAID across a
cancellation attempt, a read, and a poll with a paying oracle answer. -/
theorem terminal_status_never_changes_witness :
    (applyOps
        [Op.cancelSale, Op.getSale 1700000400,
          Op.pollStatus true (Except.ok "PAID") 1700000400 1700000400]
        { exampleSale with status := Status.PAID, paid_at := some 1700000100 }).status =
      ({ exampleSale with status := Status.PAID, paid_at := some 1700000100 } : Sale).status :=
  terminal_status_never_changes.1
    [Op.cancelSale, Op.getSale 1700000400,
      Op.pollStatus true (Except.ok "PAID") 1700000400 1700000400]
    { exampleSale with status := Status.PAID, paid_at := some 1700000100 }
    (Or.inl rfl)

/-! ## C5 -/

/-- C5: if the sale is terminal after the expiry refresh inside
`check_sale_status` (EXPIRED — including freshly expired — PAID, or
CANCELLED), the call returns that status immediately and the oracle is
not queried. -/
theorem poll_terminal_short_circuits (hasToken : Bool)
    (oracle : Except String String) (now nowPaid : Nat) (sale : Sale)
    (h : (refresh_sale_expiry now sale).status ≠ Status.PENDING) :
    (check_sale_status hasToken oracle now nowPaid sale).oracleQueried = false ∧
    (check_sale_status hasToken oracle now nowPaid sale).response =
      Except.ok ⟨sale.sale_id, (refresh_sale_expiry now sale).status, sale.md5⟩ ∧
    (check_sale_status hasToken oracle now nowPaid sale).sale =
      refresh_sale_expiry now sale := by
  rw [check_status_not_pending hasToken oracle now nowPaid sale h]
  exact ⟨rfl, rfl, rfl⟩

/-- C5 witness: a sale that becomes EXPIRED during the same poll is
returned as EXPIRED without querying the oracle, even with a token and a
paying oracle answer available. -/
theorem poll_terminal_short_circuits_witness :
    (check_sale_status true (Except.ok "PAID") 1700000400 1700000400 exampleSale).oracleQueried =
        false ∧
    (check_sale_status true (Except.ok "PAID") 1700000400 1700000400 exampleSale).response =
      Except.ok ⟨exampleSale.sale_id,
        (refresh_sale_expiry 1700000400 exampleSale).status, exampleSale.md5⟩ ∧
    (check_sale_status true (Except.ok "PAID") 1700000400 1700000400 exampleSale).sale =
      refresh_sale_expiry 1700000400 exampleSale :=
  poll_terminal_short_circuits true (Except.ok "PAID") 1700000400 1700000400
    exampleSale (by decide)

/-! ## C6 -/

/-- C6: if the oracle call fails while the sale is PENDING after the
refresh, `check_sale_status` surfaces a 500 ("Payment check failed") and
the stored sale — status and paid_at included — is exactly as before
the call. -/
theorem oracle_failure_leaves_sale_unchanged (e : String) (now nowPaid : Nat)
    (sale : Sale)
    (h : (refresh_sale_expiry now sale).status = Status.PENDING) :
    (check_sale_status true (Except.error e) now nowPaid sale).response =
      Except.error (ApiError.ServerError ("Payment check failed: " ++ e)) ∧
    (check_sale_status true (Except.error e) now nowPaid sale).sale = sale := by
  have hr : refresh_sale_expiry now sale = sale := refresh_pending_eq now sale h
  rw [hr] at h
  constructor <;> simp [check_sale_status, hr, h]

/-- C6 witness: a failing oracle call on the concrete PENDING sale yields
the 500 error and leaves the sale untouched. -/
theorem oracle_failure_leaves_sale_unchanged_witness :
    (check_sale_status true (Except.error "timeout") 1700000100 1700000100
        exampleSale).sale = exampleSale :=
  (oracle_failure_leaves_sale_unchanged "timeout" 1700000100 1700000100
    exampleSale (by decide)).2

/-- The paid decision agrees with plain membership of the normalized
response in the accepted set. -/
theorem isPaidResponse_iff (s : String) :
    isPaidResponse s = true ↔
      normalizeOracleResponse s ∈ acceptedPaidResponses := by
  simp [isPaidResponse, List.contains, List.elem_iff]

/-! ## C1 -/

/-- C1: for a sale still PENDING after the expiry check, polling sets the
status to PAID exactly when the oracle's raw response — whitespace- and
quote-stripped, then upper-cased — is one of PAID, SUCCESS, SUCCESSFUL,
COMPLETED; "UNPAID" is not accepted, and any unaccepted response leaves
the sale unchanged and still PENDING. -/
theorem oracle_response_exact_match (resp : String) (now nowPaid : Nat)
    (sale : Sale)
    (h : (refresh_sale_expiry now sale).status = Status.PENDING) :
    ((check_sale_status true (Except.ok resp) now nowPaid sale).sale.status =
        Status.PAID ↔
      normalizeOracleResponse resp ∈ acceptedPaidResponses) ∧
    normalizeOracleResponse "UNPAID" ∉ acceptedPaidResponses ∧
    (normalizeOracleResponse resp ∉ acceptedPaidResponses →
      (check_sale_status true (Except.ok resp) now nowPaid sale).sale = sale ∧
      (check_sale_status true (Except.ok resp) now nowPaid sale).sale.status =
        Status.PENDING) := by
  have hr : refresh_sale_expiry now sale = sale := refresh_pending_eq now sale h
  rw [hr] at h
  refine ⟨?_, by decide, ?_⟩
  · by_cases hp : isPaidResponse resp = true
    · have hm := (isPaidResponse_iff resp).mp hp
      simp [check_sale_status, hr, h, hp, hm]
    · have hm : normalizeOracleResponse resp ∉ acceptedPaidResponses :=
        fun hmem => hp ((isPaidResponse_iff resp).mpr hmem)
      simp [check_sale_status, hr, h, hp, hm]
  · intro hm
    have hp : isPaidResponse resp = false := by
      rcases Bool.eq_false_or_eq_true (isPaidResponse resp) with h2 | h2
      · exact absurd ((isPaidResponse_iff resp).mp h2) hm
      · exact h2
    constructor <;> simp [check_sale_status, hr, h, hp]

/-- C1 witness: on the concrete PENDING sale, the oracle answer "UNPAID"
leaves the sale PENDING and unchanged. -/
theorem oracle_response_exact_match_witness :
    (check_sale_status true (Except.ok "UNPAID") 1700000100 1700000100
        exampleSale).sale = exampleSale ∧
    (check_sale_status true (Except.ok "UNPAID") 1700000100 1700000100
        exampleSale).sale.status = Status.PENDING :=
  (oracle_response_exact_match "UNPAID" 1700000100 1700000100 exampleSale
    (by decide)).2.2 (by decide)

/-! ## C4 -/

/-- The paid-timestamp invariant: `paid_at` is set exactly when the sale
is PAID. -/
def paidInv (s : Sale) : Prop :=
  s.paid_at ≠ none ↔ s.status = Status.PAID

/-- The expiry refresh preserves the paid-timestamp invariant. -/
theorem paidInv_refresh (now : Nat) (s : Sale) (h : paidInv s) :
    paidInv (refresh_sale_expiry now s) := by
  rcases refresh_cases now s with h2 | ⟨hs, h2⟩
  · rw [h2]
    exact h
  · rw [h2]
    have hnp : s.status ≠ Status.PAID := by
      rcases hs with hs | hs <;> simp [hs]
    have hpn : s.paid_at = none := by
      by_contra hne
      exact hnp (h.mp hne)
    simp [paidInv, hpn]

/-- Each operation preserves the paid-timestamp invariant. -/
theorem paidInv_applyOp (op : Op) (sale : Sale) (h : paidInv sale) :
    paidInv (applyOp op sale) := by
  cases op with
  | getSale now => exact paidInv_refresh now sale h
  | refreshExpiry now => exact paidInv_refresh now sale h
  | cancelSale =>
      by_cases h2 : sale.status = Status.PAID
      · simpa [applyOp, cancel_sale, h2] using h
      · have hpn : sale.paid_at = none := by
          by_contra hne
          exact h2 (h.mp hne)
        simp [applyOp, cancel_sale, h2, paidInv, hpn]
  | pollStatus hasToken oracle now nowPaid =>
      by_cases hp : (refresh_sale_expiry now sale).status = Status.PENDING
      · have hr : refresh_sale_expiry now sale = sale := refresh_pending_eq now sale hp
        rw [hr] at hp
        cases hasToken with
        | false => simpa [applyOp, check_sale_status, hr, hp] using h
        | true =>
            cases oracle with
            | error e => simpa [applyOp, check_sale_status, hr, hp] using h
            | ok resp =>
                by_cases hpr : isPaidResponse resp = true
                · simp [applyOp, check_sale_status, hr, hp, hpr, paidInv]
                · have hpr2 : isPaidResponse resp = false := by
                    rcases Bool.eq_false_or_eq_true (isPaidResponse resp) with h2 | h2
                    · exact absurd h2 hpr
                    · exact h2
                  simpa [applyOp, check_sale_status, hr, hp, hpr2] using h
      · rw [applyOp, check_status_not_pending hasToken oracle now nowPaid sale hp]
        exact paidInv_refresh now sale h

/-- `paid_at` changes only in the paid branch of a poll: it goes from
`none` to the poll's clock reading, in the same step that sets PAID. -/
theorem paid_at_change (op : Op) (sale : Sale) (hinv : paidInv sale)
    (hch : (applyOp op sale).paid_at ≠ sale.paid_at) :
    sale.paid_at = none ∧ (applyOp op sale).status = Status.PAID ∧
    ∃ hasToken oracle now nowPaid,
      op = Op.pollStatus hasToken oracle now nowPaid ∧
      (applyOp op sale).paid_at = some nowPaid := by
  cases op with
  | getSale now =>
      exact absurd (refresh_preserves_fields now sale).2.2.1 hch
  | refreshExpiry now =>
      exact absurd (refresh_preserves_fields now sale).2.2.1 hch
  | cancelSale =>
      by_cases h2 : sale.status = Status.PAID
      · simp [applyOp, cancel_sale, h2] at hch
      · simp [applyOp, cancel_sale, h2] at hch
  | pollStatus hasToken oracle now nowPaid =>
      by_cases hp : (refresh_sale_expiry now sale).status = Status.PENDING
      · have hr : refresh_sale_expiry now sale = sale := refresh_pending_eq now sale hp
        rw [hr] at hp
        have hpn : sale.paid_at = none := by
          by_contra hne
          rw [hinv.mp hne] at hp
          exact Status.noConfusion hp
        cases hasToken with
        | false => simp [applyOp, check_sale_status, hr, hp] at hch
        | true =>
            cases oracle with
            | error e => simp [applyOp, check_sale_status, hr, hp] at hch
            | ok resp =>
                by_cases hpr : isPaidResponse resp = true
                · refine ⟨hpn, ?_, true, Except.ok resp, now, nowPaid, rfl, ?_⟩ <;>
                    simp [applyOp, check_sale_status, hr, hp, hpr]
                · have hpr2 : isPaidResponse resp = false := by
                    rcases Bool.eq_false_or_eq_true (isPaidResponse resp) with h2 | h2
                    · exact absurd h2 hpr
                    · exact h2
                  simp [applyOp, check_sale_status, hr, hp, hpr2] at hch
      · rw [applyOp, check_status_not_pending hasToken oracle now nowPaid sale hp] at hch
        exact absurd (refresh_preserves_fields now sale).2.2.1 hch

/-- C4: a freshly created sale has `paid_at = None` and status PENDING;
every operation preserves "paid_at is set iff status is PAID"; and
`paid_at` is only ever assigned once — from `None` to the polling step's
current time, in the very step that sets status PAID. -/
theorem paid_at_iff_status_paid :
    (∀ (sale_id : String) (req : SaleCreateReq) (created_at ttl : Nat)
        (md5 : String),
        (mkSale sale_id req created_at ttl md5).paid_at = none ∧
        (mkSale sale_id req created_at ttl md5).status = Status.PENDING) ∧
    (∀ (op : Op) (sale : Sale), paidInv sale → paidInv (applyOp op sale)) ∧
    (∀ (op : Op) (sale : Sale), paidInv sale →
        (applyOp op sale).paid_at ≠ sale.paid_at →
        sale.paid_at = none ∧ (applyOp op sale).status = Status.PAID ∧
        ∃ hasToken oracle now nowPaid,
          op = Op.pollStatus hasToken oracle now nowPaid ∧
          (applyOp op sale).paid_at = some nowPaid) :=
  ⟨fun _ _ _ _ _ => ⟨rfl, rfl⟩, paidInv_applyOp, paid_at_change⟩

/-- C4 witness: the invariant holds for the concrete PENDING sale and is
preserved by a successful poll that marks it PAID. -/
theorem paid_at_iff_status_paid_witness :
    paidInv (applyOp
      (Op.pollStatus true (Except.ok "PAID") 1700000100 1700000100)
      exampleSale) :=
  paid_at_iff_status_paid.2.1
    (Op.pollStatus true (Except.ok "PAID") 1700000100 1700000100)
    exampleSale (by simp [paidInv, exampleSale])

/-! ## C7 (corrected) -/

/-- Dict assignment stores the new sale at its key. -/
theorem storeGet_storeSet (store : SaleStore) (id : String) (s : Sale) :
    storeGet (storeSet store id s) id = some s := by
  induction store with
  | nil => simp [storeSet, storeGet]
  | cons kv rest ih =>
      obtain ⟨k, v⟩ := kv
      by_cases h : k = id
      · simp [storeSet, storeGet, h]
      · simp [storeSet, storeGet, h, ih]

/-- C7 counterexample: when the QR string and md5 succeed but the PNG
rendering raises, `create_sale` surfaces the 500 error, yet the sale was
already assigned into `SALES` — the store is not as it was before. -/
theorem create_sale_png_failure_stores_sale_cex :
    (create_sale [] exampleReq "11111111-2222-3333-4444-555555555555"
        1700000000 300 (Except.ok "QR-STRING")
        (Except.ok "ffffffffffffffffffffffffffffffff")
        (Except.error "PNG render failed")).1 =
      Except.error (ApiError.ServerError "KHQR create failed: PNG render failed") ∧
    (create_sale [] exampleReq "11111111-2222-3333-4444-555555555555"
        1700000000 300 (Except.ok "QR-STRING")
        (Except.ok "ffffffffffffffffffffffffffffffff")
        (Except.error "PNG render failed")).2 ≠ ([] : SaleStore) := by
  constructor
  · rfl
  · intro hcontra
    simp [create_sale, validReq, exampleReq, storeSet] at hcontra

/-- C7 (amended): a validation failure or a payload-provider failure
(QR string or md5 generation) stores nothing, but a PNG-rendering
failure after those is surfaced as the same 500 while the new sale
remains stored. -/
theorem create_sale_atomic_except_png :
    (∀ (store : SaleStore) (req : SaleCreateReq) (id : String)
        (created_at ttl : Nat) (qrR md5R pngR : Except String String),
        validReq req = false →
        create_sale store req id created_at ttl qrR md5R pngR =
          (Except.error ApiError.ValidationError, store)) ∧
    (∀ (store : SaleStore) (req : SaleCreateReq) (id : String)
        (created_at ttl : Nat) (e : String) (md5R pngR : Except String String),
        validReq req = true →
        create_sale store req id created_at ttl (Except.error e) md5R pngR =
          (Except.error (ApiError.ServerError ("KHQR create failed: " ++ e)),
            store)) ∧
    (∀ (store : SaleStore) (req : SaleCreateReq) (id qr : String)
        (created_at ttl : Nat) (e : String) (pngR : Except String String),
        validReq req = true →
        create_sale store req id created_at ttl (Except.ok qr)
            (Except.error e) pngR =
          (Except.error (ApiError.ServerError ("KHQR create failed: " ++ e)),
            store)) ∧
    (∀ (store : SaleStore) (req : SaleCreateReq) (id qr md5 : String)
        (created_at ttl : Nat) (e : String),
        validReq req = true →
        create_sale store req id created_at ttl (Except.ok qr)
            (Except.ok md5) (Except.error e) =
          (Except.error (ApiError.ServerError ("KHQR create failed: " ++ e)),
            storeSet store id (mkSale id req created_at ttl md5))) := by
  refine ⟨?_, ?_, ?_, ?_⟩ <;> intros <;> simp_all [create_sale]

/-- C7 (amended) witness: on an empty store and the concrete request, a
failing QR-string provider yields the 500 and leaves the store empty. -/
theorem create_sale_atomic_except_png_witness :
    create_sale [] exampleReq "11111111-2222-3333-4444-555555555555"
        1700000000 300 (Except.error "provider down")
        (Except.ok "md5") (Except.ok "png") =
      (Except.error (ApiError.ServerError ("KHQR create failed: " ++ "provider down")),
        ([] : SaleStore)) :=
  create_sale_atomic_except_png.2.1 [] exampleReq
    "11111111-2222-3333-4444-555555555555" 1700000000 300 "provider down"
    (Except.ok "md5") (Except.ok "png") (by rfl)

/-! ## C9 (corrected) -/

/-- C9 counterexample: creating a sale whose identifier already exists in
the store does not fail — it succeeds and replaces the previously stored
record (plain dict assignment). -/
theorem insert_duplicate_overwrites_cex :
    (∃ res,
      (create_sale [("11111111-2222-3333-4444-555555555555", exampleSale)]
          exampleReq "11111111-2222-3333-4444-555555555555" 1700000050 300
          (Except.ok "QR2") (Except.ok "MD5-NEW") (Except.ok "PNG")).1 =
        Except.ok res) ∧
    storeGet
      (create_sale [("11111111-2222-3333-4444-555555555555", exampleSale)]
          exampleReq "11111111-2222-3333-4444-555555555555" 1700000050 300
          (Except.ok "QR2") (Except.ok "MD5-NEW") (Except.ok "PNG")).2
      "11111111-2222-3333-4444-555555555555" =
      some (mkSale "11111111-2222-3333-4444-555555555555" exampleReq
        1700000050 300 "MD5-NEW") ∧
    mkSale "11111111-2222-3333-4444-555555555555" exampleReq
        1700000050 300 "MD5-NEW" ≠ exampleSale := by
  refine ⟨⟨_, rfl⟩, rfl, ?_⟩
  intro hcontra
  have := congrArg Sale.md5 hcontra
  simp [mkSale, exampleSale] at this

/-- C9 (amended): insertion never fails on a duplicate identifier:
`SALES[sale_id] = ...` unconditionally stores the new sale, and the store
afterwards maps the identifier to the new record, replacing any previous
one. -/
theorem insert_overwrites_amended (store : SaleStore) (req : SaleCreateReq)
    (id qr md5 png : String) (created_at ttl : Nat)
    (h : validReq req = true) :
    (∃ res, (create_sale store req id created_at ttl
        (Except.ok qr) (Except.ok md5) (Except.ok png)).1 = Except.ok res) ∧
    storeGet (create_sale store req id created_at ttl
        (Except.ok qr) (Except.ok md5) (Except.ok png)).2 id =
      some (mkSale id req created_at ttl md5) := by
  constructor
  · exact ⟨⟨id, req.amount, req.currency, md5, png, Status.PENDING,
      created_at, created_at + ttl⟩, by simp [create_sale, h]⟩
  · simp [create_sale, h, storeGet_storeSet]

/-- C9 (amended) witness: the concrete duplicate insertion succeeds and
the store ends up holding the new record under the duplicated id. -/
theorem insert_overwrites_amended_witness :
    (∃ res,
      (create_sale [("11111111-2222-3333-4444-555555555555", exampleSale)]
          exampleReq "11111111-2222-3333-4444-555555555555" 1700000060 300
          (Except.ok "QR3") (Except.ok "MD5-NEW2") (Except.ok "PNG")).1 =
        Except.ok res) ∧
    storeGet
      (create_sale [("11111111-2222-3333-4444-555555555555", exampleSale)]
          exampleReq "11111111-2222-3333-4444-555555555555" 1700000060 300
          (Except.ok "QR3") (Except.ok "MD5-NEW2") (Except.ok "PNG")).2
      "11111111-2222-3333-4444-555555555555" =
      some (mkSale "11111111-2222-3333-4444-555555555555" exampleReq
        1700000060 300 "MD5-NEW2") :=
  insert_overwrites_amended
    [("11111111-2222-3333-4444-555555555555", exampleSale)] exampleReq
    "11111111-2222-3333-4444-555555555555" "QR3" "MD5-NEW2" "PNG"
    1700000060 300 (by rfl)
